import Mathlib

/-
Verification of the enrichment orchestration logic of the Human Enrichment
Service (Go): `services/enrichment.go` (`EnrichPerson`, `fetchData`) together
with the update flow of `handlers/person.go` (`UpdatePerson`) that re-invokes
the orchestrator.

The embedding models the outside world as an environment mapping a request URL
to an optional HTTP response (`none` = transport failure).  JSON numbers are
modelled as rationals; a number decoded into a Go `int` field must be integral,
mirroring `encoding/json`, which rejects a fractional literal for an `int`
target.  Go's `encoding/json` leaves a struct field at its zero value when no
key matches or the value is `null`; it matches object keys to a field's tag
preferring an exact match but also accepting a case-insensitive one, and since
every matching key assigns to the field, the last matching key wins.  The
model folds case with ASCII lowering, which coincides with Go's `EqualFold`
on the tags used here (`age`, `gender`, `country`, `country_id`,
`probability`): none of their letters has a non-ASCII case-fold partner.
-/

namespace Enrichment

/-- A JSON value. -/
inductive Json where
  | null
  | bool (b : Bool)
  | num (q : Rat)
  | str (s : String)
  | arr (elems : List Json)
  | obj (fields : List (String × Json))

/-- The persisted person record (`models.Person`). -/
structure Person where
  id : Nat
  name : String
  surname : String
  patronymic : Option String
  age : Option Int
  gender : Option String
  nationality : Option String
deriving DecidableEq

/-- Response shape parsed from the age lookup (`AgifyResponse`). -/
structure AgifyResponse where
  age : Int
deriving DecidableEq

/-- Response shape parsed from the gender lookup (`GenderizeResponse`). -/
structure GenderizeResponse where
  gender : String
deriving DecidableEq

/-- One element of the country array of the nationality lookup. -/
structure CountryEntry where
  country_id : String
  probability : Rat
deriving DecidableEq

/-- Response shape parsed from the nationality lookup (`NationalizeResponse`). -/
structure NationalizeResponse where
  country : List CountryEntry
deriving DecidableEq

/-- An HTTP response: a status code and a body; `body = none` models a body
that is not syntactically valid JSON. -/
structure HTTPResponse where
  statusCode : Nat
  body : Option Json

/-- The outside world: what each URL answers; `none` is a transport failure
(connection error or timeout). -/
def Env : Type := String → Option HTTPResponse

/-- ASCII case folding on a character code: map the codes of A-Z to a-z and
leave every other code unchanged. -/
def foldCode (n : Nat) : Nat :=
  if 65 ≤ n ∧ n ≤ 90 then n + 32 else n

/-- Case-insensitive key comparison: the two strings agree after ASCII
folding.  This coincides with Go's `EqualFold` on the ASCII tags involved
here. -/
def keyMatches (k tag : String) : Bool :=
  decide ((k.data.map fun c => foldCode c.toNat) = tag.data.map fun c => foldCode c.toNat)

/-- The value Go's `encoding/json` uses for the struct field tagged `key` when
decoding the object `fields`: every key that matches the tag - exactly or
case-insensitively - assigns to the field, so the last matching occurrence
wins; `none` when no key matches. -/
def jsonField (fields : List (String × Json)) (key : String) : Option Json :=
  fields.foldl (fun acc kv => if keyMatches kv.1 key then some kv.2 else acc) none

/-- Decode a JSON value into `AgifyResponse` (struct `{ Age int }` with tag
`age`): missing key or `null` leaves the zero value, a non-integral or
non-numeric value is a decode error. -/
def decodeAgify : Json → Option AgifyResponse
  | .obj fields =>
    match jsonField fields "age" with
    | none => some ⟨0⟩
    | some .null => some ⟨0⟩
    | some (.num q) => if q.den = 1 then some ⟨q.num⟩ else none
    | some _ => none
  | .null => some ⟨0⟩
  | _ => none

/-- Decode a JSON value into `GenderizeResponse` (struct `{ Gender string }`
with tag `gender`). -/
def decodeGenderize : Json → Option GenderizeResponse
  | .obj fields =>
    match jsonField fields "gender" with
    | none => some ⟨""⟩
    | some .null => some ⟨""⟩
    | some (.str s) => some ⟨s⟩
    | some _ => none
  | .null => some ⟨""⟩
  | _ => none

/-- Decode one element of the country array (tags `country_id`,
`probability`). -/
def decodeCountryEntry : Json → Option CountryEntry
  | .obj fields =>
    let cid : Option String :=
      match jsonField fields "country_id" with
      | none => some ""
      | some .null => some ""
      | some (.str s) => some s
      | some _ => none
    let prob : Option Rat :=
      match jsonField fields "probability" with
      | none => some 0
      | some .null => some 0
      | some (.num q) => some q
      | some _ => none
    match cid, prob with
    | some c, some q => some ⟨c, q⟩
    | _, _ => none
  | .null => some ⟨"", 0⟩
  | _ => none

/-- Decode a JSON value into `NationalizeResponse` (struct with a `country`
array field). -/
def decodeNationalize : Json → Option NationalizeResponse
  | .obj fields =>
    match jsonField fields "country" with
    | none => some ⟨[]⟩
    | some .null => some ⟨[]⟩
    | some (.arr xs) => (xs.mapM decodeCountryEntry).map fun cs => ⟨cs⟩
    | some _ => none
  | .null => some ⟨[]⟩
  | _ => none

/-- `fetchData` of `services/enrichment.go`: issue the GET (read the response
off the environment), fail on transport error, then on a non-200 status, then
on a body that does not decode into the target shape. -/
def fetchData {α : Type} (resp : Option HTTPResponse) (decode : Json → Option α) :
    Except String α :=
  match resp with
  | none => .error "transport error"
  | some r =>
    if r.statusCode ≠ 200 then
      .error ("unexpected status code: " ++ toString r.statusCode)
    else
      match r.body with
      | none => .error "failed to parse JSON response"
      | some j =>
        match decode j with
        | none => .error "failed to parse JSON response"
        | some v => .ok v

/-- URL of the age lookup: `fmt.Sprintf("https://api.agify.io/?name=%s", person.Name)`. -/
def ageURL (name : String) : String :=
  "https://api.agify.io/?name=" ++ name

/-- URL of the gender lookup. -/
def genderURL (name : String) : String :=
  "https://api.genderize.io/?name=" ++ name

/-- URL of the nationality lookup. -/
def nationalityURL (name : String) : String :=
  "https://api.nationalize.io/?name=" ++ name

/-- Which lookup a warning belongs to. -/
inductive LookupKind where
  | age
  | gender
  | nationality
deriving DecidableEq

/-- A log entry: `Debugf` entries and the per-lookup `Warnf` entries of
`EnrichPerson`, the latter tagged with the lookup they concern. -/
inductive LogEntry where
  | debug (msg : String)
  | warn (kind : LookupKind) (msg : String)

/-- Result of one enrichment step: the updated person, the log entries the
step emitted, and the URLs it requested. -/
structure StepResult where
  person : Person
  log : List LogEntry
  requests : List String

/-- The age block of `EnrichPerson` (lines 48-57): fetch, warn-and-skip on
error, set `person.age` only when the decoded age is non-zero. -/
def enrichAge (env : Env) (p : Person) : StepResult :=
  let url := ageURL p.name
  match fetchData (env url) decodeAgify with
  | .error e =>
    ⟨p, [.warn .age ("could not enrich age for " ++ p.name ++ ": " ++ e)], [url]⟩
  | .ok res =>
    if res.age ≠ 0 then
      ⟨{ p with age := some res.age }, [.debug ("enriched age for " ++ p.name)], [url]⟩
    else
      ⟨p, [], [url]⟩

/-- The gender block of `EnrichPerson` (lines 59-67): set `person.gender` only
when the decoded gender is non-empty. -/
def enrichGender (env : Env) (p : Person) : StepResult :=
  let url := genderURL p.name
  match fetchData (env url) decodeGenderize with
  | .error e =>
    ⟨p, [.warn .gender ("could not enrich gender for " ++ p.name ++ ": " ++ e)], [url]⟩
  | .ok res =>
    if res.gender ≠ "" then
      ⟨{ p with gender := some res.gender }, [.debug ("enriched gender for " ++ p.name)], [url]⟩
    else
      ⟨p, [], [url]⟩

/-- The nationality block of `EnrichPerson` (lines 69-79): when the country
array is non-empty, set `person.nationality` to the first element's country
code. -/
def enrichNationality (env : Env) (p : Person) : StepResult :=
  let url := nationalityURL p.name
  match fetchData (env url) decodeNationalize with
  | .error e =>
    ⟨p, [.warn .nationality ("could not enrich nationality for " ++ p.name ++ ": " ++ e)], [url]⟩
  | .ok res =>
    match res.country with
    | [] => ⟨p, [], [url]⟩
    | c :: _ =>
      ⟨{ p with nationality := some c.country_id },
       [.debug ("enriched nationality for " ++ p.name)], [url]⟩

/-- Result of the orchestrator: the enriched person, the full log, the URLs
requested in order, and the error returned to the caller. -/
structure EnrichResult where
  person : Person
  log : List LogEntry
  requests : List String
  err : Option String

/-- `EnrichPerson` of `services/enrichment.go`: the three lookups run
sequentially - age, then gender, then nationality - and the function returns
`nil` unconditionally. -/
def EnrichPerson (env : Env) (p : Person) : EnrichResult :=
  let s1 := enrichAge env p
  let s2 := enrichGender env s1.person
  let s3 := enrichNationality env s2.person
  { person := s3.person
    log := .debug ("starting enrichment for " ++ p.name) ::
      (s1.log ++ s2.log ++ s3.log ++ [.debug ("finished enrichment for " ++ p.name)])
    requests := s1.requests ++ s2.requests ++ s3.requests
    err := none }

/-- The update payload (`models.PersonInput`). -/
structure PersonInput where
  name : String
  surname : String
  patronymic : Option String
deriving DecidableEq

/-- The field merge of `UpdatePerson` (lines 303-312 of `handlers/person.go`):
only non-empty name/surname and a present patronymic replace the stored
values. -/
def applyPersonInput (input : PersonInput) (p : Person) : Person :=
  let p1 := if input.name ≠ "" then { p with name := input.name } else p
  let p2 := if input.surname ≠ "" then { p1 with surname := input.surname } else p1
  match input.patronymic with
  | some pat => { p2 with patronymic := some pat }
  | none => p2

/-- The re-enrichment of `UpdatePerson` (lines 314-319): merge the input into
the stored record, then unconditionally run `EnrichPerson` on the result. -/
def updatePersonFlow (env : Env) (input : PersonInput) (existing : Person) : Person :=
  (EnrichPerson env (applyPersonInput input existing)).person

/-- Does this log entry carry a warning for the given lookup? -/
def LogEntry.isWarnFor : LogEntry → LookupKind → Bool
  | .warn k _, k' => decide (k = k')
  | .debug _, _ => false

/-- Does the log contain a warning for the given lookup? -/
def hasWarn (log : List LogEntry) (k : LookupKind) : Bool :=
  log.any fun e => e.isWarnFor k

/-- Point update of an environment at one URL. -/
def updateEnv (env : Env) (url : String) (resp : Option HTTPResponse) : Env :=
  fun u => if u = url then resp else env u

/-- Did a fetch fail (transport, status, or parse)? -/
def isErr {α : Type} : Except String α → Bool
  | .error _ => true
  | .ok _ => false

/-- Effect of the age block on the person, as a function of the fetch result. -/
def applyAge (r : Except String AgifyResponse) (p : Person) : Person :=
  match r with
  | .error _ => p
  | .ok res => if res.age ≠ 0 then { p with age := some res.age } else p

/-- Effect of the gender block on the person. -/
def applyGender (r : Except String GenderizeResponse) (p : Person) : Person :=
  match r with
  | .error _ => p
  | .ok res => if res.gender ≠ "" then { p with gender := some res.gender } else p

/-- Effect of the nationality block on the person. -/
def applyNationality (r : Except String NationalizeResponse) (p : Person) : Person :=
  match r with
  | .error _ => p
  | .ok res =>
    match res.country with
    | [] => p
    | c :: _ => { p with nationality := some c.country_id }

/-- An environment in which every lookup suffers a transport failure. -/
def envAllFail : Env := fun _ => none

/-- An environment in which every lookup answers 200 with body `{}` (valid
JSON, all expected fields missing). -/
def envAllZero : Env := fun _ => some ⟨200, some (.obj [])⟩

/-- An environment in which every lookup answers 200 with body
`{"age": 34}`. -/
def envAge34 : Env := fun _ => some ⟨200, some (.obj [("age", .num 34)])⟩

/-- An environment in which every lookup answers 200 with the two-country
nationality body of the spec's example. -/
def envNatUS : Env := fun _ =>
  some ⟨200, some (.obj [("country", .arr
    [.obj [("country_id", .str "US"), ("probability", .num (6 / 10))],
     .obj [("country_id", .str "GB"), ("probability", .num (4 / 10))]])])⟩

/-- An environment in which every lookup answers with status 500. -/
def envStatus500 : Env := fun _ => some ⟨500, none⟩

/-- An environment that transport-fails the age lookup for "Dmitriy" and
answers 500 everywhere else. -/
def envMixed : Env := fun u =>
  if u = ageURL "Dmitriy" then none else some ⟨500, none⟩

/-- A bare person, not yet enriched. -/
def personBase : Person :=
  { id := 1, name := "Dmitriy", surname := "Ushakov", patronymic := none,
    age := none, gender := none, nationality := none }

/-- A person carrying values from a previous successful enrichment. -/
def personEnriched : Person :=
  { id := 7, name := "Dmitriy", surname := "Ushakov", patronymic := none,
    age := some 42, gender := some "male", nationality := some "RU" }

/-- An update payload that re-submits the same name and surname. -/
def inputSame : PersonInput :=
  { name := "Dmitriy", surname := "Ushakov", patronymic := none }

theorem applyAge_name (r : Except String AgifyResponse) (p : Person) :
    (applyAge r p).name = p.name := by
  cases r with
  | error e => rfl
  | ok res => simp only [applyAge]; split <;> rfl

theorem applyAge_surname (r : Except String AgifyResponse) (p : Person) :
    (applyAge r p).surname = p.surname := by
  cases r with
  | error e => rfl
  | ok res => simp only [applyAge]; split <;> rfl

theorem applyAge_patronymic (r : Except String AgifyResponse) (p : Person) :
    (applyAge r p).patronymic = p.patronymic := by
  cases r with
  | error e => rfl
  | ok res => simp only [applyAge]; split <;> rfl

theorem applyAge_id (r : Except String AgifyResponse) (p : Person) :
    (applyAge r p).id = p.id := by
  cases r with
  | error e => rfl
  | ok res => simp only [applyAge]; split <;> rfl

theorem applyAge_gender (r : Except String AgifyResponse) (p : Person) :
    (applyAge r p).gender = p.gender := by
  cases r with
  | error e => rfl
  | ok res => simp only [applyAge]; split <;> rfl

theorem applyAge_nationality (r : Except String AgifyResponse) (p : Person) :
    (applyAge r p).nationality = p.nationality := by
  cases r with
  | error e => rfl
  | ok res => simp only [applyAge]; split <;> rfl

theorem applyGender_name (r : Except String GenderizeResponse) (p : Person) :
    (applyGender r p).name = p.name := by
  cases r with
  | error e => rfl
  | ok res => simp only [applyGender]; split <;> rfl

theorem applyGender_surname (r : Except String GenderizeResponse) (p : Person) :
    (applyGender r p).surname = p.surname := by
  cases r with
  | error e => rfl
  | ok res => simp only [applyGender]; split <;> rfl

theorem applyGender_patronymic (r : Except String GenderizeResponse) (p : Person) :
    (applyGender r p).patronymic = p.patronymic := by
  cases r with
  | error e => rfl
  | ok res => simp only [applyGender]; split <;> rfl

theorem applyGender_id (r : Except String GenderizeResponse) (p : Person) :
    (applyGender r p).id = p.id := by
  cases r with
  | error e => rfl
  | ok res => simp only [applyGender]; split <;> rfl

theorem applyGender_age (r : Except String GenderizeResponse) (p : Person) :
    (applyGender r p).age = p.age := by
  cases r with
  | error e => rfl
  | ok res => simp only [applyGender]; split <;> rfl

theorem applyGender_nationality (r : Except String GenderizeResponse) (p : Person) :
    (applyGender r p).nationality = p.nationality := by
  cases r with
  | error e => rfl
  | ok res => simp only [applyGender]; split <;> rfl

theorem applyNationality_name (r : Except String NationalizeResponse) (p : Person) :
    (applyNationality r p).name = p.name := by
  cases r with
  | error e => rfl
  | ok res => simp only [applyNationality]; cases res.country <;> rfl

theorem applyNationality_surname (r : Except String NationalizeResponse) (p : Person) :
    (applyNationality r p).surname = p.surname := by
  cases r with
  | error e => rfl
  | ok res => simp only [applyNationality]; cases res.country <;> rfl

theorem applyNationality_patronymic (r : Except String NationalizeResponse) (p : Person) :
    (applyNationality r p).patronymic = p.patronymic := by
  cases r with
  | error e => rfl
  | ok res => simp only [applyNationality]; cases res.country <;> rfl

theorem applyNationality_id (r : Except String NationalizeResponse) (p : Person) :
    (applyNationality r p).id = p.id := by
  cases r with
  | error e => rfl
  | ok res => simp only [applyNationality]; cases res.country <;> rfl

theorem applyNationality_age (r : Except String NationalizeResponse) (p : Person) :
    (applyNationality r p).age = p.age := by
  cases r with
  | error e => rfl
  | ok res => simp only [applyNationality]; cases res.country <;> rfl

theorem applyNationality_gender (r : Except String NationalizeResponse) (p : Person) :
    (applyNationality r p).gender = p.gender := by
  cases r with
  | error e => rfl
  | ok res => simp only [applyNationality]; cases res.country <;> rfl

theorem enrichAge_person (env : Env) (p : Person) :
    (enrichAge env p).person = applyAge (fetchData (env (ageURL p.name)) decodeAgify) p := by
  simp only [enrichAge, applyAge]
  cases fetchData (env (ageURL p.name)) decodeAgify with
  | error e => rfl
  | ok res => simp only; split <;> rfl

theorem enrichGender_person (env : Env) (p : Person) :
    (enrichGender env p).person = applyGender (fetchData (env (genderURL p.name)) decodeGenderize) p := by
  simp only [enrichGender, applyGender]
  cases fetchData (env (genderURL p.name)) decodeGenderize with
  | error e => rfl
  | ok res => simp only; split <;> rfl

theorem enrichNationality_person (env : Env) (p : Person) :
    (enrichNationality env p).person =
      applyNationality (fetchData (env (nationalityURL p.name)) decodeNationalize) p := by
  simp only [enrichNationality, applyNationality]
  cases fetchData (env (nationalityURL p.name)) decodeNationalize with
  | error e => rfl
  | ok res => simp only; cases res.country <;> rfl

theorem enrichAge_requests (env : Env) (p : Person) :
    (enrichAge env p).requests = [ageURL p.name] := by
  simp only [enrichAge]
  cases fetchData (env (ageURL p.name)) decodeAgify with
  | error e => rfl
  | ok res => simp only; split <;> rfl

theorem enrichGender_requests (env : Env) (p : Person) :
    (enrichGender env p).requests = [genderURL p.name] := by
  simp only [enrichGender]
  cases fetchData (env (genderURL p.name)) decodeGenderize with
  | error e => rfl
  | ok res => simp only; split <;> rfl

theorem enrichNationality_requests (env : Env) (p : Person) :
    (enrichNationality env p).requests = [nationalityURL p.name] := by
  simp only [enrichNationality]
  cases fetchData (env (nationalityURL p.name)) decodeNationalize with
  | error e => rfl
  | ok res => simp only; cases res.country <;> rfl

theorem hasWarn_enrichAge (env : Env) (p : Person) (k : LookupKind) :
    hasWarn (enrichAge env p).log k =
      (decide (LookupKind.age = k) && isErr (fetchData (env (ageURL p.name)) decodeAgify)) := by
  simp only [enrichAge, isErr]
  cases fetchData (env (ageURL p.name)) decodeAgify with
  | error e => simp [hasWarn, LogEntry.isWarnFor]
  | ok res => simp only; split <;> simp [hasWarn, LogEntry.isWarnFor]

theorem hasWarn_enrichGender (env : Env) (p : Person) (k : LookupKind) :
    hasWarn (enrichGender env p).log k =
      (decide (LookupKind.gender = k) && isErr (fetchData (env (genderURL p.name)) decodeGenderize)) := by
  simp only [enrichGender, isErr]
  cases fetchData (env (genderURL p.name)) decodeGenderize with
  | error e => simp [hasWarn, LogEntry.isWarnFor]
  | ok res => simp only; split <;> simp [hasWarn, LogEntry.isWarnFor]

theorem hasWarn_enrichNationality (env : Env) (p : Person) (k : LookupKind) :
    hasWarn (enrichNationality env p).log k =
      (decide (LookupKind.nationality = k) && isErr (fetchData (env (nationalityURL p.name)) decodeNationalize)) := by
  simp only [enrichNationality, isErr]
  cases fetchData (env (nationalityURL p.name)) decodeNationalize with
  | error e => simp [hasWarn, LogEntry.isWarnFor]
  | ok res => simp only; cases res.country <;> simp [hasWarn, LogEntry.isWarnFor]

theorem hasWarn_append (l₁ l₂ : List LogEntry) (k : LookupKind) :
    hasWarn (l₁ ++ l₂) k = (hasWarn l₁ k || hasWarn l₂ k) := by
  simp [hasWarn, List.any_append]

theorem EnrichPerson_person (env : Env) (p : Person) :
    (EnrichPerson env p).person =
      applyNationality (fetchData (env (nationalityURL p.name)) decodeNationalize)
        (applyGender (fetchData (env (genderURL p.name)) decodeGenderize)
          (applyAge (fetchData (env (ageURL p.name)) decodeAgify) p)) := by
  show (enrichNationality env (enrichGender env (enrichAge env p).person).person).person = _
  rw [enrichNationality_person, enrichGender_person, enrichAge_person,
    applyGender_name, applyAge_name]

theorem EnrichPerson_requests (env : Env) (p : Person) :
    (EnrichPerson env p).requests = [ageURL p.name, genderURL p.name, nationalityURL p.name] := by
  show (enrichAge env p).requests ++ (enrichGender env (enrichAge env p).person).requests ++
      (enrichNationality env (enrichGender env (enrichAge env p).person).person).requests = _
  rw [enrichAge_requests, enrichGender_requests, enrichNationality_requests,
    enrichGender_person, enrichAge_person, applyGender_name, applyAge_name]
  rfl

theorem EnrichPerson_hasWarn (env : Env) (p : Person) (k : LookupKind) :
    hasWarn (EnrichPerson env p).log k =
      ((decide (LookupKind.age = k) && isErr (fetchData (env (ageURL p.name)) decodeAgify)) ||
       (decide (LookupKind.gender = k) && isErr (fetchData (env (genderURL p.name)) decodeGenderize)) ||
       (decide (LookupKind.nationality = k) &&
         isErr (fetchData (env (nationalityURL p.name)) decodeNationalize))) := by
  show hasWarn (.debug _ :: ((enrichAge env p).log ++
      (enrichGender env (enrichAge env p).person).log ++
      (enrichNationality env (enrichGender env (enrichAge env p).person).person).log ++
      [.debug _])) k = _
  have hd : ∀ (m : String) (l : List LogEntry),
      hasWarn (LogEntry.debug m :: l) k = hasWarn l k := by
    intro m l; simp [hasWarn, LogEntry.isWarnFor]
  rw [hd, hasWarn_append, hasWarn_append, hasWarn_append,
    hasWarn_enrichAge, hasWarn_enrichGender, hasWarn_enrichNationality,
    enrichGender_person, enrichAge_person, applyGender_name, applyAge_name]
  simp [hasWarn, LogEntry.isWarnFor, Bool.or_assoc]

theorem ageURL_ne_genderURL (n : String) : ageURL n ≠ genderURL n := by
  intro h
  have h1 : (ageURL n).length = (genderURL n).length := congrArg String.length h
  rw [ageURL, genderURL, String.length_append, String.length_append] at h1
  have e1 : ("https://api.agify.io/?name=" : String).length = 27 := rfl
  have e2 : ("https://api.genderize.io/?name=" : String).length = 31 := rfl
  rw [e1, e2] at h1
  omega

theorem ageURL_ne_nationalityURL (n : String) : ageURL n ≠ nationalityURL n := by
  intro h
  have h1 : (ageURL n).length = (nationalityURL n).length := congrArg String.length h
  rw [ageURL, nationalityURL, String.length_append, String.length_append] at h1
  have e1 : ("https://api.agify.io/?name=" : String).length = 27 := rfl
  have e2 : ("https://api.nationalize.io/?name=" : String).length = 33 := rfl
  rw [e1, e2] at h1
  omega

theorem genderURL_ne_nationalityURL (n : String) : genderURL n ≠ nationalityURL n := by
  intro h
  have h1 : (genderURL n).length = (nationalityURL n).length := congrArg String.length h
  rw [genderURL, nationalityURL, String.length_append, String.length_append] at h1
  have e1 : ("https://api.genderize.io/?name=" : String).length = 31 := rfl
  have e2 : ("https://api.nationalize.io/?name=" : String).length = 33 := rfl
  rw [e1, e2] at h1
  omega

theorem fetchData_badStatus {α : Type} (r : HTTPResponse) (decode : Json → Option α)
    (h : r.statusCode ≠ 200) :
    fetchData (some r) decode = .error ("unexpected status code: " ++ toString r.statusCode) := by
  simp [fetchData, h]

theorem applyAge_age_eq (r : Except String AgifyResponse) (p : Person) :
    (applyAge r p).age =
      match r with
      | .error _ => p.age
      | .ok res => if res.age ≠ 0 then some res.age else p.age := by
  cases r with
  | error e => rfl
  | ok res => simp only [applyAge]; split <;> simp [*]

theorem applyGender_gender_eq (r : Except String GenderizeResponse) (p : Person) :
    (applyGender r p).gender =
      match r with
      | .error _ => p.gender
      | .ok res => if res.gender ≠ "" then some res.gender else p.gender := by
  cases r with
  | error e => rfl
  | ok res => simp only [applyGender]; split <;> simp [*]

theorem applyNationality_nationality_eq (r : Except String NationalizeResponse) (p : Person) :
    (applyNationality r p).nationality =
      match r with
      | .error _ => p.nationality
      | .ok res =>
        match res.country with
        | [] => p.nationality
        | c :: _ => some c.country_id := by
  cases r with
  | error e => rfl
  | ok res => simp only [applyNationality]; cases res.country <;> rfl

theorem applyPersonInput_enrichFields (input : PersonInput) (p : Person) :
    (applyPersonInput input p).age = p.age ∧
    (applyPersonInput input p).gender = p.gender ∧
    (applyPersonInput input p).nationality = p.nationality := by
  unfold applyPersonInput
  cases input.patronymic <;> (split <;> split <;> simp)

theorem enrich_noop (env : Env) (p : Person)
    (h1 : fetchData (env (ageURL p.name)) decodeAgify = .ok ⟨0⟩)
    (h2 : fetchData (env (genderURL p.name)) decodeGenderize = .ok ⟨""⟩)
    (h3 : fetchData (env (nationalityURL p.name)) decodeNationalize = .ok ⟨[]⟩) :
    (EnrichPerson env p).person = p := by
  rw [EnrichPerson_person, h1, h2, h3]
  simp [applyAge, applyGender, applyNationality]

/-- C1: for every input person and every environment - hence every combination
of per-lookup outcomes (success, transport error, non-200 status, malformed
body, or empty/zero-value body) - `EnrichPerson` completes and returns a nil
error to its caller; no lookup failure is ever propagated as an error. -/
theorem C1_never_fails (env : Env) (p : Person) :
    (EnrichPerson env p).err = none := rfl

/-- C2 counterexample: a person previously enriched with gender "male" (and
age 42, nationality "RU") is re-enriched through the update flow while every
lookup fails; contrary to the claim, gender does not become absent - the
previously-set value "male" is preserved, and likewise age and nationality. -/
theorem C2_counterexample :
    (updatePersonFlow envAllFail inputSame personEnriched).gender = some "male" ∧
    ¬ (updatePersonFlow envAllFail inputSame personEnriched).gender = none ∧
    (updatePersonFlow envAllFail inputSame personEnriched).age = some 42 ∧
    (updatePersonFlow envAllFail inputSame personEnriched).nationality = some "RU" := by
  refine ⟨rfl, ?_, rfl, rfl⟩
  decide

/-- C2 (amended): on re-enrichment through the update flow, a failed lookup
leaves the previously-set value of its field untouched (preserved, not
overwritten with absent); likewise for each of gender, age and nationality. -/
theorem C2_failed_lookup_preserves (env : Env) (input : PersonInput) (existing : Person) :
    (isErr (fetchData (env (genderURL (applyPersonInput input existing).name))
        decodeGenderize) = true →
      (updatePersonFlow env input existing).gender = existing.gender) ∧
    (isErr (fetchData (env (ageURL (applyPersonInput input existing).name))
        decodeAgify) = true →
      (updatePersonFlow env input existing).age = existing.age) ∧
    (isErr (fetchData (env (nationalityURL (applyPersonInput input existing).name))
        decodeNationalize) = true →
      (updatePersonFlow env input existing).nationality = existing.nationality) := by
  obtain ⟨ha, hg, hn⟩ := applyPersonInput_enrichFields input existing
  refine ⟨?_, ?_, ?_⟩ <;> intro h <;>
    rw [updatePersonFlow, EnrichPerson_person]
  · rw [applyNationality_gender]
    cases h2 : fetchData (env (genderURL (applyPersonInput input existing).name))
        decodeGenderize with
    | error e => rw [applyGender, applyAge_gender, hg]
    | ok v => rw [h2] at h; exact absurd h (by simp [isErr])
  · rw [applyNationality_age, applyGender_age]
    cases h1 : fetchData (env (ageURL (applyPersonInput input existing).name))
        decodeAgify with
    | error e => rw [applyAge, ha]
    | ok v => rw [h1] at h; exact absurd h (by simp [isErr])
  · rw [applyNationality_nationality_eq]
    cases h3 : fetchData (env (nationalityURL (applyPersonInput input existing).name))
        decodeNationalize with
    | error e => rw [applyGender_nationality, applyAge_nationality, hn]
    | ok v => rw [h3] at h; exact absurd h (by simp [isErr])

/-- Witness for the amended C2: with every lookup transport-failing, the
update flow leaves the previously enriched values in place. -/
theorem C2_failed_lookup_preserves_witness :
    (updatePersonFlow envAllFail inputSame personEnriched).gender = personEnriched.gender ∧
    (updatePersonFlow envAllFail inputSame personEnriched).age = personEnriched.age ∧
    (updatePersonFlow envAllFail inputSame personEnriched).nationality =
      personEnriched.nationality := by
  have h := C2_failed_lookup_preserves envAllFail inputSame personEnriched
  exact ⟨h.1 rfl, h.2.1 rfl, h.2.2 rfl⟩

/-- C3: on a success status with a parseable body, each field is set exactly
when its success condition holds - age iff non-zero, gender iff non-empty,
nationality iff the country array is non-empty (to its first element's code) -
and when the condition fails the field keeps its prior value and no warning is
logged for that lookup. -/
theorem C3_success_condition (env : Env) (p : Person) :
    (∀ res : AgifyResponse,
      fetchData (env (ageURL p.name)) decodeAgify = .ok res →
        (res.age ≠ 0 → (EnrichPerson env p).person.age = some res.age) ∧
        (res.age = 0 → (EnrichPerson env p).person.age = p.age ∧
          hasWarn (EnrichPerson env p).log .age = false)) ∧
    (∀ res : GenderizeResponse,
      fetchData (env (genderURL p.name)) decodeGenderize = .ok res →
        (res.gender ≠ "" → (EnrichPerson env p).person.gender = some res.gender) ∧
        (res.gender = "" → (EnrichPerson env p).person.gender = p.gender ∧
          hasWarn (EnrichPerson env p).log .gender = false)) ∧
    (∀ res : NationalizeResponse,
      fetchData (env (nationalityURL p.name)) decodeNationalize = .ok res →
        (∀ c cs, res.country = c :: cs →
          (EnrichPerson env p).person.nationality = some c.country_id) ∧
        (res.country = [] → (EnrichPerson env p).person.nationality = p.nationality ∧
          hasWarn (EnrichPerson env p).log .nationality = false)) := by
  refine ⟨?_, ?_, ?_⟩
  · intro res hres
    refine ⟨?_, ?_⟩
    · intro hne
      rw [EnrichPerson_person, applyNationality_age, applyGender_age, hres,
        applyAge_age_eq]
      simp [hne]
    · intro hz
      refine ⟨?_, ?_⟩
      · rw [EnrichPerson_person, applyNationality_age, applyGender_age, hres,
          applyAge_age_eq]
        simp [hz]
      · rw [EnrichPerson_hasWarn, hres]
        simp [isErr]
  · intro res hres
    refine ⟨?_, ?_⟩
    · intro hne
      rw [EnrichPerson_person, applyNationality_gender, hres, applyGender_gender_eq]
      simp [hne, applyAge_gender]
    · intro hz
      refine ⟨?_, ?_⟩
      · rw [EnrichPerson_person, applyNationality_gender, hres, applyGender_gender_eq]
        simp [hz, applyAge_gender]
      · rw [EnrichPerson_hasWarn, hres]
        simp [isErr]
  · intro res hres
    refine ⟨?_, ?_⟩
    · intro c cs hc
      rw [EnrichPerson_person, hres, applyNationality_nationality_eq]
      simp [hc]
    · intro hz
      refine ⟨?_, ?_⟩
      · rw [EnrichPerson_person, hres, applyNationality_nationality_eq]
        simp [hz, applyGender_nationality, applyAge_nationality]
      · rw [EnrichPerson_hasWarn, hres]
        simp [isErr]

/-- Witness for C3: the body `{"age": 34}` sets age to 34; the body `{}`
(decoding to age 0) leaves age unset. -/
theorem C3_success_condition_witness :
    (EnrichPerson envAge34 personBase).person.age = some 34 ∧
    (EnrichPerson envAllZero personBase).person.age = none := by
  refine ⟨?_, ?_⟩
  · exact ((C3_success_condition envAge34 personBase).1 ⟨34⟩ rfl).1 (by decide)
  · exact (((C3_success_condition envAllZero personBase).1 ⟨0⟩ rfl).2 rfl).1

/-- C4: whenever the nationality lookup decodes to a non-empty country array,
nationality is set to the country code of the first element, regardless of the
probability values. -/
theorem C4_first_country (env : Env) (p : Person) (res : NationalizeResponse)
    (c : CountryEntry) (cs : List CountryEntry)
    (hres : fetchData (env (nationalityURL p.name)) decodeNationalize = .ok res)
    (hc : res.country = c :: cs) :
    (EnrichPerson env p).person.nationality = some c.country_id := by
  rw [EnrichPerson_person, hres, applyNationality_nationality_eq]
  simp [hc]

/-- Witness for C4: the spec's example body with US at probability 0.6 before
GB at 0.4 yields nationality "US". -/
theorem C4_first_country_witness :
    (EnrichPerson envNatUS personBase).person.nationality = some "US" :=
  C4_first_country envNatUS personBase
    ⟨[⟨"US", 6 / 10⟩, ⟨"GB", 4 / 10⟩]⟩ ⟨"US", 6 / 10⟩ [⟨"GB", 4 / 10⟩] rfl rfl

/-- C5: for each of the three lookups, a response with any non-200 status is
handled identically to a transport failure: the orchestrator produces the same
person as when that lookup transport-fails, the corresponding field keeps its
prior value, a warning for that lookup is logged, and the other lookups still
run. -/
theorem C5_bad_status_like_transport (env : Env) (p : Person) (r : HTTPResponse)
    (hr : r.statusCode ≠ 200) :
    (env (ageURL p.name) = some r →
      (EnrichPerson env p).person =
        (EnrichPerson (updateEnv env (ageURL p.name) none) p).person ∧
      (EnrichPerson env p).person.age = p.age ∧
      hasWarn (EnrichPerson env p).log .age = true) ∧
    (env (genderURL p.name) = some r →
      (EnrichPerson env p).person =
        (EnrichPerson (updateEnv env (genderURL p.name) none) p).person ∧
      (EnrichPerson env p).person.gender = p.gender ∧
      hasWarn (EnrichPerson env p).log .gender = true) ∧
    (env (nationalityURL p.name) = some r →
      (EnrichPerson env p).person =
        (EnrichPerson (updateEnv env (nationalityURL p.name) none) p).person ∧
      (EnrichPerson env p).person.nationality = p.nationality ∧
      hasWarn (EnrichPerson env p).log .nationality = true) := by
  refine ⟨?_, ?_, ?_⟩ <;> intro he
  · have hfe : fetchData (env (ageURL p.name)) decodeAgify =
        .error ("unexpected status code: " ++ toString r.statusCode) := by
      rw [he]; exact fetchData_badStatus r decodeAgify hr
    have ha' : updateEnv env (ageURL p.name) none (ageURL p.name) = none := by
      unfold updateEnv; rw [if_pos rfl]
    have hg' : updateEnv env (ageURL p.name) none (genderURL p.name) =
        env (genderURL p.name) := by
      unfold updateEnv
      rw [if_neg (fun hh => ageURL_ne_genderURL p.name hh.symm)]
    have hn' : updateEnv env (ageURL p.name) none (nationalityURL p.name) =
        env (nationalityURL p.name) := by
      unfold updateEnv
      rw [if_neg (fun hh => ageURL_ne_nationalityURL p.name hh.symm)]
    refine ⟨?_, ?_, ?_⟩
    · rw [EnrichPerson_person, EnrichPerson_person, ha', hg', hn', hfe]
      rfl
    · rw [EnrichPerson_person, applyNationality_age, applyGender_age, hfe]
      rfl
    · rw [EnrichPerson_hasWarn, hfe]
      simp [isErr]
  · have hfe : fetchData (env (genderURL p.name)) decodeGenderize =
        .error ("unexpected status code: " ++ toString r.statusCode) := by
      rw [he]; exact fetchData_badStatus r decodeGenderize hr
    have ha' : updateEnv env (genderURL p.name) none (ageURL p.name) =
        env (ageURL p.name) := by
      unfold updateEnv
      rw [if_neg (fun hh => ageURL_ne_genderURL p.name hh)]
    have hg' : updateEnv env (genderURL p.name) none (genderURL p.name) = none := by
      unfold updateEnv; rw [if_pos rfl]
    have hn' : updateEnv env (genderURL p.name) none (nationalityURL p.name) =
        env (nationalityURL p.name) := by
      unfold updateEnv
      rw [if_neg (fun hh => genderURL_ne_nationalityURL p.name hh.symm)]
    refine ⟨?_, ?_, ?_⟩
    · rw [EnrichPerson_person, EnrichPerson_person, ha', hg', hn', hfe]
      rfl
    · rw [EnrichPerson_person, applyNationality_gender, hfe]
      rw [applyGender, applyAge_gender]
    · rw [EnrichPerson_hasWarn, hfe]
      simp [isErr]
  · have hfe : fetchData (env (nationalityURL p.name)) decodeNationalize =
        .error ("unexpected status code: " ++ toString r.statusCode) := by
      rw [he]; exact fetchData_badStatus r decodeNationalize hr
    have ha' : updateEnv env (nationalityURL p.name) none (ageURL p.name) =
        env (ageURL p.name) := by
      unfold updateEnv
      rw [if_neg (fun hh => ageURL_ne_nationalityURL p.name hh)]
    have hg' : updateEnv env (nationalityURL p.name) none (genderURL p.name) =
        env (genderURL p.name) := by
      unfold updateEnv
      rw [if_neg (fun hh => genderURL_ne_nationalityURL p.name hh)]
    have hn' : updateEnv env (nationalityURL p.name) none (nationalityURL p.name) =
        none := by
      unfold updateEnv; rw [if_pos rfl]
    refine ⟨?_, ?_, ?_⟩
    · rw [EnrichPerson_person, EnrichPerson_person, ha', hg', hn', hfe]
      rfl
    · rw [EnrichPerson_person, hfe, applyNationality]
      rw [applyGender_nationality, applyAge_nationality]
    · rw [EnrichPerson_hasWarn, hfe]
      simp [isErr]

/-- Witness for C5: with every lookup answering status 500, the age lookup
behaves like a transport failure - the field stays unset, a warning is logged,
and the resulting person matches the transport-failure run. -/
theorem C5_bad_status_like_transport_witness :
    (EnrichPerson envStatus500 personBase).person =
      (EnrichPerson (updateEnv envStatus500 (ageURL personBase.name) none)
        personBase).person ∧
    (EnrichPerson envStatus500 personBase).person.age = personBase.age ∧
    hasWarn (EnrichPerson envStatus500 personBase).log .age = true := by
  exact (C5_bad_status_like_transport envStatus500 personBase ⟨500, none⟩
    (by decide)).1 rfl

/-- C6: every invocation issues exactly the three lookup requests, in the
fixed order age, gender, nationality, and each field's outcome depends only on
its own lookup's response - so a failure of one lookup affects neither whether
the others are attempted nor the values they set. -/
theorem C6_single_attempt_fixed_order (env env' : Env) (p : Person) :
    (EnrichPerson env p).requests =
      [ageURL p.name, genderURL p.name, nationalityURL p.name] ∧
    (env' (ageURL p.name) = env (ageURL p.name) →
      (EnrichPerson env' p).person.age = (EnrichPerson env p).person.age) ∧
    (env' (genderURL p.name) = env (genderURL p.name) →
      (EnrichPerson env' p).person.gender = (EnrichPerson env p).person.gender) ∧
    (env' (nationalityURL p.name) = env (nationalityURL p.name) →
      (EnrichPerson env' p).person.nationality =
        (EnrichPerson env p).person.nationality) := by
  refine ⟨EnrichPerson_requests env p, ?_, ?_, ?_⟩ <;> intro h <;>
    rw [EnrichPerson_person, EnrichPerson_person]
  · rw [applyNationality_age, applyNationality_age, applyGender_age, applyGender_age,
      applyAge_age_eq, applyAge_age_eq, h]
  · rw [applyNationality_gender, applyNationality_gender,
      applyGender_gender_eq, applyGender_gender_eq,
      applyAge_gender, applyAge_gender, h]
  · rw [applyNationality_nationality_eq, applyNationality_nationality_eq,
      applyGender_nationality, applyGender_nationality,
      applyAge_nationality, applyAge_nationality, h]

/-- Witness for C6: the all-fail run requests exactly the three URLs in order,
and an environment that agrees with it on the age URL produces the same age. -/
theorem C6_single_attempt_fixed_order_witness :
    (EnrichPerson envAllFail personBase).requests =
      [ageURL personBase.name, genderURL personBase.name,
       nationalityURL personBase.name] ∧
    (EnrichPerson envMixed personBase).person.age =
      (EnrichPerson envAllFail personBase).person.age := by
  have h := C6_single_attempt_fixed_order envAllFail envMixed personBase
  exact ⟨h.1, h.2.1 rfl⟩

/-- C7: when all three lookups succeed but decode to the zero values (age 0,
empty gender, empty country array), the orchestrator leaves the person record
completely unchanged. -/
theorem C7_noop_unchanged (env : Env) (p : Person)
    (h1 : fetchData (env (ageURL p.name)) decodeAgify = .ok ⟨0⟩)
    (h2 : fetchData (env (genderURL p.name)) decodeGenderize = .ok ⟨""⟩)
    (h3 : fetchData (env (nationalityURL p.name)) decodeNationalize = .ok ⟨[]⟩) :
    (EnrichPerson env p).person = p :=
  enrich_noop env p h1 h2 h3

/-- Witness for C7: every lookup answering 200 with body `{}` leaves the
person record exactly as it was. -/
theorem C7_noop_unchanged_witness :
    (EnrichPerson envAllZero personBase).person = personBase :=
  C7_noop_unchanged envAllZero personBase rfl rfl rfl

/-- C8: each of the three lookup URLs carries the input name verbatim as the
query parameter value - the URL is the fixed endpoint prefix followed by the
untouched name, with no trimming, case normalization or percent-encoding. -/
theorem C8_name_verbatim (name : String) :
    ageURL name = "https://api.agify.io/?name=" ++ name ∧
    genderURL name = "https://api.genderize.io/?name=" ++ name ∧
    nationalityURL name = "https://api.nationalize.io/?name=" ++ name ∧
    (ageURL name).data.drop 27 = name.data ∧
    (genderURL name).data.drop 31 = name.data ∧
    (nationalityURL name).data.drop 33 = name.data := by
  refine ⟨rfl, rfl, rfl, ?_, ?_, ?_⟩
  · show (("https://api.agify.io/?name=" : String) ++ name).data.drop 27 = name.data
    rw [show (27 : Nat) = ("https://api.agify.io/?name=" : String).data.length from rfl,
      String.data_append, List.drop_left]
  · show (("https://api.genderize.io/?name=" : String) ++ name).data.drop 31 = name.data
    rw [show (31 : Nat) = ("https://api.genderize.io/?name=" : String).data.length from rfl,
      String.data_append, List.drop_left]
  · show (("https://api.nationalize.io/?name=" : String) ++ name).data.drop 33 = name.data
    rw [show (33 : Nat) = ("https://api.nationalize.io/?name=" : String).data.length from rfl,
      String.data_append, List.drop_left]

/-- C9: enrichment is monotone and frame-respecting - for every environment,
name, surname, patronymic and id are never modified, and each of age, gender,
nationality either keeps its pre-call value or takes a value from that
lookup's successful response; no field is ever cleared. -/
theorem C9_monotone_frame (env : Env) (p : Person) :
    (EnrichPerson env p).person.name = p.name ∧
    (EnrichPerson env p).person.surname = p.surname ∧
    (EnrichPerson env p).person.patronymic = p.patronymic ∧
    (EnrichPerson env p).person.id = p.id ∧
    ((EnrichPerson env p).person.age = p.age ∨
      ∃ res : AgifyResponse,
        fetchData (env (ageURL p.name)) decodeAgify = .ok res ∧
        res.age ≠ 0 ∧ (EnrichPerson env p).person.age = some res.age) ∧
    ((EnrichPerson env p).person.gender = p.gender ∨
      ∃ res : GenderizeResponse,
        fetchData (env (genderURL p.name)) decodeGenderize = .ok res ∧
        res.gender ≠ "" ∧ (EnrichPerson env p).person.gender = some res.gender) ∧
    ((EnrichPerson env p).person.nationality = p.nationality ∨
      ∃ (res : NationalizeResponse) (c : CountryEntry) (cs : List CountryEntry),
        fetchData (env (nationalityURL p.name)) decodeNationalize = .ok res ∧
        res.country = c :: cs ∧
        (EnrichPerson env p).person.nationality = some c.country_id) := by
  have hperson := EnrichPerson_person env p
  refine ⟨?_, ?_, ?_, ?_, ?_, ?_, ?_⟩
  · rw [hperson, applyNationality_name, applyGender_name, applyAge_name]
  · rw [hperson, applyNationality_surname, applyGender_surname, applyAge_surname]
  · rw [hperson, applyNationality_patronymic, applyGender_patronymic,
      applyAge_patronymic]
  · rw [hperson, applyNationality_id, applyGender_id, applyAge_id]
  · rw [hperson, applyNationality_age, applyGender_age, applyAge_age_eq]
    cases hf : fetchData (env (ageURL p.name)) decodeAgify with
    | error e => left; rfl
    | ok res =>
      by_cases hz : res.age = 0
      · left; simp [hz]
      · right; exact ⟨res, rfl, hz, by simp [hz]⟩
  · rw [hperson, applyNationality_gender, applyGender_gender_eq, applyAge_gender]
    cases hf : fetchData (env (genderURL p.name)) decodeGenderize with
    | error e => left; rfl
    | ok res =>
      by_cases hz : res.gender = ""
      · left; simp [hz]
      · right; exact ⟨res, rfl, hz, by simp [hz]⟩
  · rw [hperson, applyNationality_nationality_eq, applyGender_nationality,
      applyAge_nationality]
    cases hf : fetchData (env (nationalityURL p.name)) decodeNationalize with
    | error e => left; rfl
    | ok res =>
      cases hc : res.country with
      | nil => left; simp [hc]
      | cons c cs => right; exact ⟨res, c, cs, rfl, hc, by simp [hc]⟩

/-- C10: a 200 response whose body is valid JSON but lacks the expected field
decodes to the zero value, so the lookup takes the silent no-op path - the
fetch succeeds (not a malformed-body error), the field keeps its prior value,
no warning is logged, and the outcome is indistinguishable from an explicit
zero/empty value in the body. -/
theorem C10_missing_field_silent (env : Env) (p : Person) :
    (∀ fs : List (String × Json), jsonField fs "age" = none →
      env (ageURL p.name) = some ⟨200, some (.obj fs)⟩ →
        fetchData (env (ageURL p.name)) decodeAgify = .ok ⟨0⟩ ∧
        fetchData (env (ageURL p.name)) decodeAgify =
          fetchData (some ⟨200, some (.obj [("age", .num 0)])⟩) decodeAgify ∧
        (EnrichPerson env p).person.age = p.age ∧
        hasWarn (EnrichPerson env p).log .age = false) ∧
    (∀ fs : List (String × Json), jsonField fs "gender" = none →
      env (genderURL p.name) = some ⟨200, some (.obj fs)⟩ →
        fetchData (env (genderURL p.name)) decodeGenderize = .ok ⟨""⟩ ∧
        fetchData (env (genderURL p.name)) decodeGenderize =
          fetchData (some ⟨200, some (.obj [("gender", .str "")])⟩) decodeGenderize ∧
        (EnrichPerson env p).person.gender = p.gender ∧
        hasWarn (EnrichPerson env p).log .gender = false) ∧
    (∀ fs : List (String × Json), jsonField fs "country" = none →
      env (nationalityURL p.name) = some ⟨200, some (.obj fs)⟩ →
        fetchData (env (nationalityURL p.name)) decodeNationalize = .ok ⟨[]⟩ ∧
        fetchData (env (nationalityURL p.name)) decodeNationalize =
          fetchData (some ⟨200, some (.obj [("country", .arr [])])⟩) decodeNationalize ∧
        (EnrichPerson env p).person.nationality = p.nationality ∧
        hasWarn (EnrichPerson env p).log .nationality = false) := by
  refine ⟨?_, ?_, ?_⟩ <;> intro fs hm he
  · have hfd : fetchData (env (ageURL p.name)) decodeAgify = .ok ⟨0⟩ := by
      rw [he]; simp [fetchData, decodeAgify, hm]
    refine ⟨hfd, ?_, ?_, ?_⟩
    · rw [hfd]; rfl
    · rw [EnrichPerson_person, applyNationality_age, applyGender_age, hfd,
        applyAge_age_eq]
      simp
    · rw [EnrichPerson_hasWarn, hfd]
      simp [isErr]
  · have hfd : fetchData (env (genderURL p.name)) decodeGenderize = .ok ⟨""⟩ := by
      rw [he]; simp [fetchData, decodeGenderize, hm]
    refine ⟨hfd, ?_, ?_, ?_⟩
    · rw [hfd]; rfl
    · rw [EnrichPerson_person, applyNationality_gender, hfd, applyGender_gender_eq]
      simp [applyAge_gender]
    · rw [EnrichPerson_hasWarn, hfd]
      simp [isErr]
  · have hfd : fetchData (env (nationalityURL p.name)) decodeNationalize =
        .ok ⟨[]⟩ := by
      rw [he]; simp [fetchData, decodeNationalize, hm]
    refine ⟨hfd, ?_, ?_, ?_⟩
    · rw [hfd]; rfl
    · rw [EnrichPerson_person, hfd, applyNationality_nationality_eq]
      simp [applyGender_nationality, applyAge_nationality]
    · rw [EnrichPerson_hasWarn, hfd]
      simp [isErr]

/-- Witness for C10: the body `{}` on every lookup decodes to the zero values,
sets nothing and logs no warning. -/
theorem C10_missing_field_silent_witness :
    fetchData (envAllZero (ageURL personBase.name)) decodeAgify = .ok ⟨0⟩ ∧
    (EnrichPerson envAllZero personBase).person.age = personBase.age ∧
    hasWarn (EnrichPerson envAllZero personBase).log .age = false ∧
    fetchData (envAllZero (genderURL personBase.name)) decodeGenderize = .ok ⟨""⟩ ∧
    fetchData (envAllZero (nationalityURL personBase.name)) decodeNationalize =
      .ok ⟨[]⟩ := by
  obtain ⟨h1, h2, h3⟩ := C10_missing_field_silent envAllZero personBase
  have a := h1 [] rfl rfl
  have g := h2 [] rfl rfl
  have n := h3 [] rfl rfl
  exact ⟨a.1, a.2.2.1, a.2.2.2, g.1, n.1⟩

end Enrichment
